import Mathlib

/-!
Verification development for the bourso-api repository.

We shallowly embed the code that the checked properties talk about:
the transfer workflow (`src/bourso_api/src/client/transfer/mod.rs`),
the login flow and its parse helpers
(`src/bourso_api/src/client/mod.rs`, `src/bourso_api/src/client/config.rs`),
the virtual-keypad decoder (`src/bourso/client.rs`), and the MFA retry
loop (`src/services/auth.rs`).

HTTP traffic is modelled by passing each step the response the portal
would return (status, body, `Location` header); the embedding then
mirrors, statement by statement, what the Rust code does with that
response.  Rust `f64` amounts are modelled as rationals (every finite
`f64` is a rational and `<` on `f64` agrees with the rational order on
finite values, which is all the validation compares).  Rust panics
(out-of-bounds indexing, `Option::unwrap` on `None`) are modelled as an
explicit `panicked` outcome, distinct from the `Result::Err` values the
code returns deliberately.
-/

deriving instance DecidableEq for Except

namespace Bourso

/-- Whitespace test used to model the regex class `\s`. -/
def isWsChar (c : Char) : Bool :=
  c = ' ' || c = '\t' || c = '\n' || c = '\r' || c = '\x0c' || c = '\x0b'

/-- Does `hay` contain `needle` as a contiguous sublist?  Models Rust
`str::contains` with a literal pattern. -/
def listContainsSub (needle : List Char) : List Char → Bool
  | [] => needle.isEmpty
  | c :: t => needle.isPrefixOf (c :: t) || listContainsSub needle t

/-- Rust `haystack.contains(needle)` on strings. -/
def strContains (hay needle : String) : Bool :=
  listContainsSub needle.data hay.data

/-- Remainder of `hay` after the first occurrence of `needle`
(`none` when `needle` never occurs).  Used to model a regex scanning
for a literal sub-pattern. -/
def findSub (needle : List Char) : List Char → Option (List Char)
  | [] => if needle.isEmpty then some [] else none
  | c :: t =>
    if needle.isPrefixOf (c :: t) then some ((c :: t).drop needle.length)
    else findSub needle t

/-- Characters strictly before the first occurrence of `stop`
(`none` when `stop` never occurs).  Models a lazy `(.*?)stop` capture
under the `s` regex flag. -/
def takeUntil (stop : Char) : List Char → Option (List Char)
  | [] => none
  | c :: t => if c = stop then some [] else (takeUntil stop t).map (c :: ·)

/-- Like `takeUntil` but refusing to cross a newline: models a lazy
`(.*?)stop` capture without the `s` flag, where `.` does not match
`\n`. -/
def takeUntilSameLine (stop : Char) : List Char → Option (List Char)
  | [] => none
  | c :: t =>
    if c = stop then some []
    else if c = '\n' then none
    else (takeUntilSameLine stop t).map (c :: ·)

/-- Rust `s.split(sep)` (which always yields at least one piece, and
yields empty pieces around consecutive separators). -/
def splitChar (sep : Char) : List Char → List (List Char)
  | [] => [[]]
  | c :: t =>
    if c = sep then [] :: splitChar sep t
    else match splitChar sep t with
      | [] => [[c]]
      | p :: ps => (c :: p) :: ps

/-- Rust `str::len`: the UTF-8 byte length of the string. -/
def rustLen (s : String) : Nat :=
  s.data.foldl (fun n c => n + c.utf8Size) 0

/-- Rust `str::trim` (restricted to the ASCII whitespace that ever
occurs around the scraped tokens). -/
def trimChars (l : List Char) : List Char :=
  ((l.dropWhile isWsChar).reverse.dropWhile isWsChar).reverse

/-- One HTTP response as the transfer/login steps observe it. -/
structure HttpResponse where
  status : Nat
  body : String
  location : Option String
  deriving DecidableEq

/-- `TransferProgress` from `transfer/mod.rs`. -/
inductive TransferProgress
  | Validating
  | InitializingTransfer
  | ExtractingFlowInstance
  | SettingDebitAccount
  | SettingCreditAccount
  | SettingAmount
  | SubmittingStep7
  | SettingReason
  | ConfirmingTransfer
  | Completed
  deriving DecidableEq

/-- `TransferError` from `transfer/error.rs`. -/
inductive TransferError
  | AmountTooLow
  | TransferInitiationFailed
  | SetDebitAccountFailed
  | SetCreditAccountFailed
  | Step7Failed
  | SetAmountFailed
  | SetReasonFailed
  | ReasonIsTooLong
  | SubmitTransferFailed
  | InvalidTransfer
  deriving DecidableEq

/-- A failure escaping one transfer step: either one of the typed
`TransferError` values the code `bail!`s with, or an `anyhow` context
error attached to a failed extraction (`.context(...)?`). -/
inductive StepFailure
  | typed (e : TransferError)
  | context (msg : String)
  deriving DecidableEq

/-- One item of the progress stream: `Ok(progress)` or `Err(error)`. -/
inductive TransferEvent
  | progress (p : TransferProgress)
  | failure (e : StepFailure)
  deriving DecidableEq

/-- Which of the underlying HTTP-performing step functions were
invoked during a run (in order). -/
inductive StepCall
  | initTransfer
  | extractFlowInstance
  | setDebitAccount
  | setCreditAccount
  | setTransferAmount
  | submitStep7
  | setTransferReason
  | confirmTransfer
  deriving DecidableEq

/-- `AccountKind` from `bourso_api/src/account.rs` (the fields the
transfer workflow reads). -/
inductive AccountKind
  | Banking
  | Savings
  | Trading
  | Loans
  deriving DecidableEq

/-- The fields of `Account` that `transfer_funds` reads. -/
structure Account where
  id : String
  kind : AccountKind
  deriving DecidableEq

/-- The portal responses one run of the transfer wizard consumes, one
per HTTP-performing step, in step order. -/
structure TransferEnv where
  initResp : HttpResponse
  flowResp : HttpResponse
  debitResp : HttpResponse
  creditResp : HttpResponse
  amountResp : HttpResponse
  step7Resp : HttpResponse
  reasonResp : HttpResponse
  confirmResp : HttpResponse
  deriving DecidableEq

/-- The observable outcome of one `transfer_funds` run: the progress
stream it yielded, the HTTP steps it invoked, and the reason string it
passed to the set-reason step (when that step was reached). -/
structure TransferRun where
  events : List TransferEvent
  calls : List StepCall
  submittedReason : Option String
  deriving DecidableEq

/-- `init_transfer` (transfer/mod.rs:64-92): require a 302, read the
`Location` header, take the 8th `/`-separated segment as transfer id. -/
def init_transfer (resp : HttpResponse) : Except StepFailure String :=
  if resp.status ≠ 302 then .error (.typed .TransferInitiationFailed)
  else match resp.location with
    | none => .error (.context "Missing Location header")
    | some loc =>
      match (splitChar '/' loc.data).get? 7 with
      | none => .error (.context "Failed to extract transfer id")
      | some seg => .ok (String.mk seg)

/-- The capture of the regex
`name="flow_ImmediateCashTransfer_instance" value="([^"]+)"`: the
non-empty run of non-quote characters following the literal part,
provided a closing quote follows. -/
def flowInstanceCapture (res : List Char) : Option (List Char) :=
  match findSub "name=\"flow_ImmediateCashTransfer_instance\" value=\"".data res with
  | none => none
  | some rest =>
    let tok := rest.takeWhile (fun c => c ≠ '"')
    if tok.isEmpty then none
    else match (rest.drop tok.length).head? with
      | some '"' => some tok
      | _ => none

/-- `extract_flow_instance` (transfer/mod.rs:96-115): require a 200,
then extract the flow-instance token from the page body. -/
def extract_flow_instance (resp : HttpResponse) : Except StepFailure String :=
  if resp.status ≠ 200 then .error (.typed .TransferInitiationFailed)
  else match flowInstanceCapture resp.body.data with
    | none => .error (.context "Failed to extract flow instance")
    | some tok => .ok (String.mk tok)

/-- `set_debit_account` (transfer/mod.rs:119-146): only the status is
inspected. -/
def set_debit_account (resp : HttpResponse) : Except StepFailure Unit :=
  if resp.status ≠ 200 then .error (.typed .SetDebitAccountFailed) else .ok ()

/-- `set_credit_account` (transfer/mod.rs:150-185): the
`transfer_from_banking` flag only changes the form payload, not the
observable outcome, which depends on the status alone. -/
def set_credit_account (_transfer_from_banking : Bool) (resp : HttpResponse) :
    Except StepFailure Unit :=
  if resp.status ≠ 200 then .error (.typed .SetCreditAccountFailed) else .ok ()

/-- `set_transfer_amount` (transfer/mod.rs:189-219). -/
def set_transfer_amount (resp : HttpResponse) : Except StepFailure Unit :=
  if resp.status ≠ 200 then .error (.typed .SetAmountFailed) else .ok ()

/-- `submit_step_7` (transfer/mod.rs:223-254). -/
def submit_step_7 (resp : HttpResponse) : Except StepFailure Unit :=
  if resp.status ≠ 200 then .error (.typed .Step7Failed) else .ok ()

/-- `set_transfer_reason` (transfer/mod.rs:258-290). -/
def set_transfer_reason (resp : HttpResponse) : Except StepFailure Unit :=
  if resp.status ≠ 200 then .error (.typed .SetReasonFailed) else .ok ()

/-- `confirm_transfer` (transfer/mod.rs:294-333): require a 200, then
succeed exactly when the body contains the literal `Confirmation`. -/
def confirm_transfer (resp : HttpResponse) : Except StepFailure Unit :=
  if resp.status ≠ 200 then .error (.typed .SubmitTransferFailed)
  else if strContains resp.body "Confirmation" then .ok ()
  else .error (.typed .InvalidTransfer)

/-- The reason actually used by a run (transfer/mod.rs:375-383): a
caller-provided reason is rejected when its byte length exceeds 50,
and an absent reason becomes the fixed default string.  Rust `r.len()`
is the UTF-8 byte length, modelled by `rustLen`. -/
def resolve_reason : Option String → Except TransferError String
  | some r => if rustLen r > 50 then .error .ReasonIsTooLong else .ok r
  | none => .ok "Virement depuis BoursoBank"

/-- `transfer_funds` (transfer/mod.rs:346-471) as a function from the
portal responses to the complete observable run.  The `events` field
lists the yielded stream items in order; the generator returns right
after yielding an `Err`, so every failing branch ends the list with
that failure. -/
def transfer_funds (env : TransferEnv) (amount : ℚ) (from_account to_account : Account)
    (reason : Option String) : TransferRun :=
  if amount < 10 then
    ⟨[.progress .Validating, .failure (.typed .AmountTooLow)], [], none⟩
  else
    match resolve_reason reason with
    | .error e => ⟨[.progress .Validating, .failure (.typed e)], [], none⟩
    | .ok transfer_reason =>
      match init_transfer env.initResp with
      | .error e =>
        ⟨[.progress .Validating, .progress .InitializingTransfer, .failure e],
         [.initTransfer], none⟩
      | .ok _transfer_id =>
        match extract_flow_instance env.flowResp with
        | .error e =>
          ⟨[.progress .Validating, .progress .InitializingTransfer,
            .progress .ExtractingFlowInstance, .failure e],
           [.initTransfer, .extractFlowInstance], none⟩
        | .ok _flow_instance =>
          match set_debit_account env.debitResp with
          | .error e =>
            ⟨[.progress .Validating, .progress .InitializingTransfer,
              .progress .ExtractingFlowInstance, .progress .SettingDebitAccount,
              .failure e],
             [.initTransfer, .extractFlowInstance, .setDebitAccount], none⟩
          | .ok _ =>
            match set_credit_account (from_account.kind == AccountKind.Banking)
                env.creditResp with
            | .error e =>
              ⟨[.progress .Validating, .progress .InitializingTransfer,
                .progress .ExtractingFlowInstance, .progress .SettingDebitAccount,
                .progress .SettingCreditAccount, .failure e],
               [.initTransfer, .extractFlowInstance, .setDebitAccount,
                .setCreditAccount], none⟩
            | .ok _ =>
              match set_transfer_amount env.amountResp with
              | .error e =>
                ⟨[.progress .Validating, .progress .InitializingTransfer,
                  .progress .ExtractingFlowInstance, .progress .SettingDebitAccount,
                  .progress .SettingCreditAccount, .progress .SettingAmount,
                  .failure e],
                 [.initTransfer, .extractFlowInstance, .setDebitAccount,
                  .setCreditAccount, .setTransferAmount], none⟩
              | .ok _ =>
                match submit_step_7 env.step7Resp with
                | .error e =>
                  ⟨[.progress .Validating, .progress .InitializingTransfer,
                    .progress .ExtractingFlowInstance, .progress .SettingDebitAccount,
                    .progress .SettingCreditAccount, .progress .SettingAmount,
                    .progress .SubmittingStep7, .failure e],
                   [.initTransfer, .extractFlowInstance, .setDebitAccount,
                    .setCreditAccount, .setTransferAmount, .submitStep7], none⟩
                | .ok _ =>
                  match set_transfer_reason env.reasonResp with
                  | .error e =>
                    ⟨[.progress .Validating, .progress .InitializingTransfer,
                      .progress .ExtractingFlowInstance, .progress .SettingDebitAccount,
                      .progress .SettingCreditAccount, .progress .SettingAmount,
                      .progress .SubmittingStep7, .progress .SettingReason,
                      .failure e],
                     [.initTransfer, .extractFlowInstance, .setDebitAccount,
                      .setCreditAccount, .setTransferAmount, .submitStep7,
                      .setTransferReason], some transfer_reason⟩
                  | .ok _ =>
                    match confirm_transfer env.confirmResp with
                    | .error e =>
                      ⟨[.progress .Validating, .progress .InitializingTransfer,
                        .progress .ExtractingFlowInstance, .progress .SettingDebitAccount,
                        .progress .SettingCreditAccount, .progress .SettingAmount,
                        .progress .SubmittingStep7, .progress .SettingReason,
                        .progress .ConfirmingTransfer, .failure e],
                       [.initTransfer, .extractFlowInstance, .setDebitAccount,
                        .setCreditAccount, .setTransferAmount, .submitStep7,
                        .setTransferReason, .confirmTransfer], some transfer_reason⟩
                    | .ok _ =>
                      ⟨[.progress .Validating, .progress .InitializingTransfer,
                        .progress .ExtractingFlowInstance, .progress .SettingDebitAccount,
                        .progress .SettingCreditAccount, .progress .SettingAmount,
                        .progress .SubmittingStep7, .progress .SettingReason,
                        .progress .ConfirmingTransfer, .progress .Completed],
                       [.initTransfer, .extractFlowInstance, .setDebitAccount,
                        .setCreditAccount, .setTransferAmount, .submitStep7,
                        .setTransferReason, .confirmTransfer], some transfer_reason⟩

/-! ## Login-page parse helpers (`bourso_api/src/client/mod.rs`,
`bourso_api/src/client/config.rs`) -/

/-- Outcome of a parse helper: the value it returns, the `anyhow`
error it `bail!`s with, or a Rust panic (an `.unwrap()` on `None`). -/
inductive ParseOutcome (α : Type)
  | ok (a : α)
  | err (msg : String)
  | panicked
  deriving DecidableEq

/-- The fields of the scraped `Config` (config.rs:7-59) that the
verified properties observe. -/
structure Config where
  user_hash : Option String
  deriving DecidableEq

/-- Capture of the regex `(?m)__brs_mit=(.*?);`: the characters
between the first `__brs_mit=` and the next `;` on the same line. -/
def brsMitCapture (res : List Char) : Option (List Char) :=
  match findSub "__brs_mit=".data res with
  | none => none
  | some rest => takeUntilSameLine ';' rest

/-- `extract_brs_mit_cookie` (client/mod.rs:542-554): a parse miss is
checked with `is_none()` and turned into a `bail!` error. -/
def extract_brs_mit_cookie (res : String) : ParseOutcome String :=
  match brsMitCapture res.data with
  | none => .err "Could not extract brs mit cookie"
  | some c => .ok (String.mk c)

/-- Capture of the regex `(?ms)form\[_token\]"(.*?)value="(.*?)"\s*>`:
after the literal `form[_token]"` and the following `value="`, the
token is the shortest run whose continuation is a quote, optional
whitespace, and `>`. -/
def tokenCapture (res : List Char) : Option (List Char) :=
  match findSub "form[_token]\"".data res with
  | none => none
  | some r1 =>
    match findSub "value=\"".data r1 with
    | none => none
    | some r2 => tokenStop r2
where
  /-- Lazy scan for the closing `"\s*>`. -/
  tokenStop : List Char → Option (List Char)
    | [] => none
    | '"' :: t =>
      if (t.dropWhile isWsChar).head? = some '>' then some []
      else (tokenStop t).map ('"' :: ·)
    | c :: t => (tokenStop t).map (c :: ·)

/-- `extract_token` (client/mod.rs:556-561): the capture is read with
`regex.captures(&res).unwrap()`, so a parse miss PANICS instead of
returning an error. -/
def extract_token (res : String) : ParseOutcome String :=
  match tokenCapture res.data with
  | none => .panicked
  | some tok => .ok (String.mk (trimChars tok))

/-- Capture of the regex `(?ms)window\.BRS_CONFIG\s*=\s*(.*?);`: the
characters between the `=` following `window.BRS_CONFIG` and the next
`;`. -/
def brsConfigCapture (res : List Char) : Option (List Char) :=
  match findSub "window.BRS_CONFIG".data res with
  | none => none
  | some r1 =>
    match r1.dropWhile isWsChar with
    | '=' :: r2 => takeUntil ';' (r2.dropWhile isWsChar)
    | _ => none

/-- `extract_brs_config` (config.rs:75-87).  The capture is read with
`.captures(&res).unwrap()`, so a page without the config blob PANICS;
a blob that does not deserialize is a `.with_context(...)` error.  The
`serde_json` deserializer is abstracted as the `parseJson`
parameter. -/
def extract_brs_config (parseJson : String → Option Config) (res : String) :
    ParseOutcome Config :=
  match brsConfigCapture res.data with
  | none => .panicked
  | some blob =>
    match parseJson (String.mk (trimChars blob)) with
    | none => .err "Could not deserialize BRS_CONFIG"
    | some c => .ok c

/-- Outcome of one `login` call, as seen by the caller of
`bourso_api/src/client/mod.rs:login`. -/
inductive LoginResult
  | success (cfg : Config)
  | invalidCredentials
  | mfaRequired
  | loginFailed (status : Nat)
  | parseError (msg : String)
  | panicked
  deriving DecidableEq

/-- `login` (client/mod.rs:221-294) from the password submission
onward: `submitResp` is the response to the POST of the encoded
password, `landing` the body of the follow-up GET of `/` (fetched only
on a 302).  Mirrors the source: a non-302 status is
`InvalidCredentials` only when the body carries one of the two error
markers, and otherwise the untyped `Could not login` error (modelled
as `loginFailed`); on a 302, the landing page is classified by the
log-out link, then the `/securisation` hint, then
`InvalidCredentials`.  On success the config is re-scraped and
`config.user_hash.as_ref().unwrap()` is read, which panics when the
scraped config has no user hash. -/
def login_outcome (parseJson : String → Option Config) (submitResp : HttpResponse)
    (landing : String) : LoginResult :=
  if submitResp.status ≠ 302 then
    if strContains submitResp.body "Identifiant ou mot de passe invalide"
        || strContains submitResp.body "Erreur d'authentification" then
      .invalidCredentials
    else .loginFailed submitResp.status
  else
    if strContains landing "href=\"/se-deconnecter\"" then
      match extract_brs_config parseJson landing with
      | .ok cfg =>
        match cfg.user_hash with
        | some _ => .success cfg
        | none => .panicked
      | .err m => .parseError m
      | .panicked => .panicked
    else if strContains landing "/securisation" then .mfaRequired
    else .invalidCredentials

/-! ## Virtual-keypad decoder (`src/bourso/client.rs`) -/

/-- Modelled from the spec: the repository's `virtual_pad` module (the
file itself is absent from the sources; only its callers are present)
resolves a key's rendered glyph to the digit it depicts "by comparison
against a small fixed reference set of known glyph encodings".  The
reference set is the `table` parameter, associating glyph encodings to
digits; an encoding outside the set is unrecognized. -/
def get_number_for_svg (table : List (String × Fin 10)) (svg : String) :
    Option (Fin 10) :=
  (table.find? (fun p => p.1 == svg)).map (·.2)

/-- `extract_data_matrix_keys` (bourso/client.rs:479-493): starting
from a `Default::default()` array of ten empty strings, walk the
captured `(data-matrix-key, svg)` pairs (the captures of the button
regex, given here as `caps`); an unrecognized glyph aborts with the
"layout changed" error, a recognized one overwrites slot `digit` with
the key identifier.  Captures that never occur leave their slot at the
empty string. -/
def extract_data_matrix_keys (table : List (String × Fin 10)) :
    List (String × String) → Except String (List String) :=
  go (List.replicate 10 "")
where
  go (keys : List String) : List (String × String) → Except String (List String)
    | [] => .ok keys
    | (matrix_key, svg) :: rest =>
      match get_number_for_svg table svg with
      | none => .error "Could not find number for svg"
      | some n => go (keys.set n.val matrix_key) rest

/-- Outcome of the password encoder: the key list it returns, the
typed error it returns, or a Rust panic. -/
inductive EncodeResult
  | ok (keys : List String)
  | err (msg : String)
  | panicked
  deriving DecidableEq

/-- Rust `char::to_digit(10)`. -/
def charToDigit10 (c : Char) : Option Nat :=
  if '0' ≤ c ∧ c ≤ '9' then some (c.toNat - '0'.toNat) else none

/-- `password_to_virtual_pad_keys` (bourso/client.rs:167-177): each
password character is converted with `to_digit(10)` (a non-digit is a
context error), then the key is read with
`self.virtual_pad_ids[number]` — an UNCHECKED index, which panics when
the mapping has fewer entries than the digit requires.  No check that
a slot is resolved (non-empty) is performed. -/
def password_to_virtual_pad_keys (virtual_pad_ids : List String)
    (password : String) : EncodeResult :=
  go password.data []
where
  go : List Char → List String → EncodeResult
    | [], acc => .ok acc.reverse
    | c :: rest, acc =>
      match charToDigit10 c with
      | none => .err "Invalid character in password"
      | some n =>
        match virtual_pad_ids.get? n with
        | none => .panicked
        | some k => go rest (k :: acc)

/-! ## MFA retry loop (`src/services/auth.rs`) -/

/-- Outcome of one `request_mfa` + `submit_mfa` round, as `handle_mfa`
observes it. -/
inductive SubmitOutcome
  | ok
  | mfaRequired
  | otherErr
  deriving DecidableEq

/-- The externally visible actions `handle_mfa` performs. -/
inductive AuthAction
  | mfaCheck
  | initSessionLogin
  deriving DecidableEq

/-- The loop body of `handle_mfa` (auth.rs:109-150): `outcomes i`
gives the result of the `i`-th MFA request/check round.  `fuel` bounds
the recursion; three iterations always suffice from `mfa_count = 0`
because every continuing iteration increments `mfa_count` and the
guard fires at 2. -/
def handle_mfa_aux (outcomes : Nat → SubmitOutcome) :
    Nat → Nat → Nat → List AuthAction
  | _, _, 0 => []
  | i, mfa_count, fuel + 1 =>
    if mfa_count = 2 then [.initSessionLogin]
    else
      .mfaCheck ::
        match outcomes i with
        | .ok => []
        | .otherErr => []
        | .mfaRequired => handle_mfa_aux outcomes (i + 1) (mfa_count + 1) fuel

/-- `handle_mfa` (auth.rs:109-150), starting from `mfa_count = 0`. -/
def handle_mfa (outcomes : Nat → SubmitOutcome) : List AuthAction :=
  handle_mfa_aux outcomes 0 0 3

/-! ## Concrete fixtures (used only to instantiate the theorems) -/

/-- A 302 response to the wizard-start GET whose `Location` header has
the shape the code expects. -/
def fixInitResp : HttpResponse :=
  ⟨302, "", some "/compte/cav/XXX/virements/immediat/nouveau/YYY/1"⟩

/-- A 200 first-wizard-page response embedding a flow instance. -/
def fixFlowResp : HttpResponse :=
  ⟨200, "name=\"flow_ImmediateCashTransfer_instance\" value=\"fl1\"", none⟩

/-- A bare 200 response. -/
def fixOkResp : HttpResponse := ⟨200, "", none⟩

/-- A 200 final response containing the confirmation marker. -/
def fixConfirmResp : HttpResponse := ⟨200, "Confirmation du virement", none⟩

/-- An environment in which every transfer step succeeds. -/
def fixEnvOk : TransferEnv :=
  ⟨fixInitResp, fixFlowResp, fixOkResp, fixOkResp, fixOkResp, fixOkResp,
   fixOkResp, fixConfirmResp⟩

/-- A source and a destination account. -/
def fixAccountA : Account := ⟨"e2f509c466f5294f15abd873dbbf8a62", .Banking⟩

/-- See `fixAccountA`. -/
def fixAccountB : Account := ⟨"d4e4fd4067b6d4d0b538a15e42238ef9", .Savings⟩

/-- A spec-modelled glyph reference set: one encoding per digit. -/
def fixGlyphTable : List (String × Fin 10) :=
  [("g0", 0), ("g1", 1), ("g2", 2), ("g3", 3), ("g4", 4),
   ("g5", 5), ("g6", 6), ("g7", 7), ("g8", 8), ("g9", 9)]

/-- Nine keypad-button captures: key number 9 is missing from the
fragment. -/
def fixCaps9 : List (String × String) :=
  [("AAA", "g0"), ("BBB", "g1"), ("CCC", "g2"), ("DDD", "g3"), ("EEE", "g4"),
   ("FFF", "g5"), ("GGG", "g6"), ("HHH", "g7"), ("III", "g8")]

/-- Ten keypad-button captures in which two keys carry the same glyph
(two keys resolve to the same digit). -/
def fixCapsDup : List (String × String) :=
  [("AAA", "g0"), ("BBB", "g0"), ("CCC", "g2"), ("DDD", "g3"), ("EEE", "g4"),
   ("FFF", "g5"), ("GGG", "g6"), ("HHH", "g7"), ("III", "g8"), ("JJJ", "g9")]

/-- A 10-slot keypad mapping in which slot 1 is unresolved (left at
the decoder's `Default::default()` empty string). -/
def fixPadWithHole : List String :=
  ["WZE", "", "LGK", "TLT", "ISV", "RNI", "ANP", "UCA", "FIG", "YCL"]

/-- A JSON deserializer stub accepting exactly the blob `1` and
producing a config with a user hash. -/
def fixParseJson : String → Option Config :=
  fun s => if s = "1" then some ⟨some "61d55b52615fbdf"⟩ else none

/-- A landing page with the log-out link and a config blob. -/
def fixLandingAuth : String :=
  "aa href=\"/se-deconnecter\" bb window.BRS_CONFIG = 1; cc"

/-- A landing page with the security-check hint only. -/
def fixLandingMfa : String := "aa /securisation bb"

/-- A landing page with neither marker. -/
def fixLandingPlain : String := "plain page"

/-! ## Helper lemmas -/

theorem le_foldl_utf8Size (l : List Char) (n : Nat) :
    n + l.length ≤ l.foldl (fun m c => m + c.utf8Size) n := by
  induction l generalizing n with
  | nil => simp
  | cons c t ih =>
    have h1 : 0 < c.utf8Size := Char.utf8Size_pos c
    have h2 := ih (n + c.utf8Size)
    simp only [List.foldl_cons, List.length_cons]
    omega

/-- A string has at least as many UTF-8 bytes as characters. -/
theorem length_le_rustLen (s : String) : s.data.length ≤ rustLen s := by
  have := le_foldl_utf8Size s.data 0
  simpa [rustLen] using this

/-! ## Claims -/

/-- C1: in every run of `transfer_funds` that passes validation, if
every HTTP step succeeds the progress stream is exactly `Validating,
InitializingTransfer, ExtractingFlowInstance, SettingDebitAccount,
SettingCreditAccount, SettingAmount, SubmittingStep7, SettingReason,
ConfirmingTransfer, Completed`, in this order with nothing else; and
if some step fails, the stream is the prefix of that sequence up to
and including the failing step's event, followed by that step's error,
and nothing further. -/
theorem C1_transfer_progress_sequence (env : TransferEnv) (amount : ℚ)
    (fa ta : Account) (reason : Option String) (tr : String)
    (hv : ¬ amount < 10) (hr : resolve_reason reason = .ok tr) :
    (∀ e, init_transfer env.initResp = .error e →
      (transfer_funds env amount fa ta reason).events =
        [.progress .Validating, .progress .InitializingTransfer, .failure e])
    ∧ (∀ tid e, init_transfer env.initResp = .ok tid →
        extract_flow_instance env.flowResp = .error e →
        (transfer_funds env amount fa ta reason).events =
          [.progress .Validating, .progress .InitializingTransfer,
           .progress .ExtractingFlowInstance, .failure e])
    ∧ (∀ tid fl e, init_transfer env.initResp = .ok tid →
        extract_flow_instance env.flowResp = .ok fl →
        set_debit_account env.debitResp = .error e →
        (transfer_funds env amount fa ta reason).events =
          [.progress .Validating, .progress .InitializingTransfer,
           .progress .ExtractingFlowInstance, .progress .SettingDebitAccount,
           .failure e])
    ∧ (∀ tid fl e, init_transfer env.initResp = .ok tid →
        extract_flow_instance env.flowResp = .ok fl →
        set_debit_account env.debitResp = .ok () →
        set_credit_account (fa.kind == AccountKind.Banking) env.creditResp = .error e →
        (transfer_funds env amount fa ta reason).events =
          [.progress .Validating, .progress .InitializingTransfer,
           .progress .ExtractingFlowInstance, .progress .SettingDebitAccount,
           .progress .SettingCreditAccount, .failure e])
    ∧ (∀ tid fl e, init_transfer env.initResp = .ok tid →
        extract_flow_instance env.flowResp = .ok fl →
        set_debit_account env.debitResp = .ok () →
        set_credit_account (fa.kind == AccountKind.Banking) env.creditResp = .ok () →
        set_transfer_amount env.amountResp = .error e →
        (transfer_funds env amount fa ta reason).events =
          [.progress .Validating, .progress .InitializingTransfer,
           .progress .ExtractingFlowInstance, .progress .SettingDebitAccount,
           .progress .SettingCreditAccount, .progress .SettingAmount, .failure e])
    ∧ (∀ tid fl e, init_transfer env.initResp = .ok tid →
        extract_flow_instance env.flowResp = .ok fl →
        set_debit_account env.debitResp = .ok () →
        set_credit_account (fa.kind == AccountKind.Banking) env.creditResp = .ok () →
        set_transfer_amount env.amountResp = .ok () →
        submit_step_7 env.step7Resp = .error e →
        (transfer_funds env amount fa ta reason).events =
          [.progress .Validating, .progress .InitializingTransfer,
           .progress .ExtractingFlowInstance, .progress .SettingDebitAccount,
           .progress .SettingCreditAccount, .progress .SettingAmount,
           .progress .SubmittingStep7, .failure e])
    ∧ (∀ tid fl e, init_transfer env.initResp = .ok tid →
        extract_flow_instance env.flowResp = .ok fl →
        set_debit_account env.debitResp = .ok () →
        set_credit_account (fa.kind == AccountKind.Banking) env.creditResp = .ok () →
        set_transfer_amount env.amountResp = .ok () →
        submit_step_7 env.step7Resp = .ok () →
        set_transfer_reason env.reasonResp = .error e →
        (transfer_funds env amount fa ta reason).events =
          [.progress .Validating, .progress .InitializingTransfer,
           .progress .ExtractingFlowInstance, .progress .SettingDebitAccount,
           .progress .SettingCreditAccount, .progress .SettingAmount,
           .progress .SubmittingStep7, .progress .SettingReason, .failure e])
    ∧ (∀ tid fl e, init_transfer env.initResp = .ok tid →
        extract_flow_instance env.flowResp = .ok fl →
        set_debit_account env.debitResp = .ok () →
        set_credit_account (fa.kind == AccountKind.Banking) env.creditResp = .ok () →
        set_transfer_amount env.amountResp = .ok () →
        submit_step_7 env.step7Resp = .ok () →
        set_transfer_reason env.reasonResp = .ok () →
        confirm_transfer env.confirmResp = .error e →
        (transfer_funds env amount fa ta reason).events =
          [.progress .Validating, .progress .InitializingTransfer,
           .progress .ExtractingFlowInstance, .progress .SettingDebitAccount,
           .progress .SettingCreditAccount, .progress .SettingAmount,
           .progress .SubmittingStep7, .progress .SettingReason,
           .progress .ConfirmingTransfer, .failure e])
    ∧ (∀ tid fl, init_transfer env.initResp = .ok tid →
        extract_flow_instance env.flowResp = .ok fl →
        set_debit_account env.debitResp = .ok () →
        set_credit_account (fa.kind == AccountKind.Banking) env.creditResp = .ok () →
        set_transfer_amount env.amountResp = .ok () →
        submit_step_7 env.step7Resp = .ok () →
        set_transfer_reason env.reasonResp = .ok () →
        confirm_transfer env.confirmResp = .ok () →
        (transfer_funds env amount fa ta reason).events =
          [.progress .Validating, .progress .InitializingTransfer,
           .progress .ExtractingFlowInstance, .progress .SettingDebitAccount,
           .progress .SettingCreditAccount, .progress .SettingAmount,
           .progress .SubmittingStep7, .progress .SettingReason,
           .progress .ConfirmingTransfer, .progress .Completed]) := by
  refine ⟨?_, ?_, ?_, ?_, ?_, ?_, ?_, ?_, ?_⟩
  · intro e h1
    simp [transfer_funds, hv, hr, h1]
  · intro tid e h1 h2
    simp [transfer_funds, hv, hr, h1, h2]
  · intro tid fl e h1 h2 h3
    simp [transfer_funds, hv, hr, h1, h2, h3]
  · intro tid fl e h1 h2 h3 h4
    simp [transfer_funds, hv, hr, h1, h2, h3, h4]
  · intro tid fl e h1 h2 h3 h4 h5
    simp [transfer_funds, hv, hr, h1, h2, h3, h4, h5]
  · intro tid fl e h1 h2 h3 h4 h5 h6
    simp [transfer_funds, hv, hr, h1, h2, h3, h4, h5, h6]
  · intro tid fl e h1 h2 h3 h4 h5 h6 h7
    simp [transfer_funds, hv, hr, h1, h2, h3, h4, h5, h6, h7]
  · intro tid fl e h1 h2 h3 h4 h5 h6 h7 h8
    simp [transfer_funds, hv, hr, h1, h2, h3, h4, h5, h6, h7, h8]
  · intro tid fl h1 h2 h3 h4 h5 h6 h7 h8
    simp [transfer_funds, hv, hr, h1, h2, h3, h4, h5, h6, h7, h8]

/-- C1, instantiated: with fixture responses on which every step
succeeds, the stream is exactly the ten progress events. -/
theorem C1_transfer_progress_sequence_witness :
    (transfer_funds fixEnvOk 100 fixAccountA fixAccountB none).events =
      [.progress .Validating, .progress .InitializingTransfer,
       .progress .ExtractingFlowInstance, .progress .SettingDebitAccount,
       .progress .SettingCreditAccount, .progress .SettingAmount,
       .progress .SubmittingStep7, .progress .SettingReason,
       .progress .ConfirmingTransfer, .progress .Completed] :=
  (C1_transfer_progress_sequence fixEnvOk 100 fixAccountA fixAccountB none
      "Virement depuis BoursoBank" (by decide) (by decide)).2.2.2.2.2.2.2.2
    "YYY" "fl1" (by decide) (by decide) (by decide) (by decide) (by decide)
    (by decide) (by decide) (by decide)

/-- C2: an amount strictly below 10 makes `transfer_funds` fail with
`AmountTooLow` right after the `Validating` event with no HTTP step
invoked; a caller-provided reason longer than 50 characters (with the
amount valid, so that the reason check is reached) makes it fail with
`ReasonIsTooLong`, likewise with no HTTP step invoked. -/
theorem C2_validation_no_network (env : TransferEnv) (amount : ℚ)
    (fa ta : Account) :
    (∀ reason, amount < 10 →
      transfer_funds env amount fa ta reason =
        ⟨[.progress .Validating, .failure (.typed .AmountTooLow)], [], none⟩)
    ∧ (∀ r, ¬ amount < 10 → 50 < r.data.length →
      transfer_funds env amount fa ta (some r) =
        ⟨[.progress .Validating, .failure (.typed .ReasonIsTooLong)], [], none⟩) := by
  constructor
  · intro reason hlt
    simp [transfer_funds, hlt]
  · intro r hge hlen
    have hbytes : 50 < rustLen r := lt_of_lt_of_le hlen (length_le_rustLen r)
    simp [transfer_funds, hge, resolve_reason, hbytes]

/-- C2, instantiated: amount `9.99` and a 51-character reason. -/
theorem C2_validation_no_network_witness :
    transfer_funds fixEnvOk (mkRat 999 100) fixAccountA fixAccountB none =
      ⟨[.progress .Validating, .failure (.typed .AmountTooLow)], [], none⟩
    ∧ transfer_funds fixEnvOk 100 fixAccountA fixAccountB
        (some "a51-character-reason-string-aaaaaaaaaaaaaaaaaaaaaaa") =
      ⟨[.progress .Validating, .failure (.typed .ReasonIsTooLong)], [], none⟩ :=
  ⟨(C2_validation_no_network fixEnvOk (mkRat 999 100) fixAccountA fixAccountB).1
      none (by decide),
   (C2_validation_no_network fixEnvOk 100 fixAccountA fixAccountB).2
      "a51-character-reason-string-aaaaaaaaaaaaaaaaaaaaaaa" (by decide) (by decide)⟩

/-- C3, counterexample to the claim as stated: the final-step success
is NOT equivalent to the body containing the confirmation marker.  A
non-200 final response whose body does contain the marker still fails
(with `SubmitTransferFailed`). -/
theorem C3_confirm_not_iff_marker_counterexample :
    strContains (HttpResponse.mk 500 "Confirmation" none).body "Confirmation" = true
    ∧ confirm_transfer (HttpResponse.mk 500 "Confirmation" none) =
        .error (.typed .SubmitTransferFailed) := by
  constructor
  · decide
  · decide

/-- C3, amended: restricted to final responses with HTTP status 200,
`confirm_transfer` succeeds exactly when the body contains the
confirmation marker; in particular a 200 response whose body lacks the
marker fails with the typed error `InvalidTransfer`. -/
theorem C3_confirm_marker_iff (resp : HttpResponse) (hst : resp.status = 200) :
    (confirm_transfer resp = .ok () ↔ strContains resp.body "Confirmation" = true)
    ∧ (strContains resp.body "Confirmation" = false →
        confirm_transfer resp = .error (.typed .InvalidTransfer)) := by
  cases hm : strContains resp.body "Confirmation" <;>
    simp [confirm_transfer, hst, hm]

/-- C3, instantiated: a 200 body with the marker succeeds, a 200 body
without it is `InvalidTransfer`. -/
theorem C3_confirm_marker_iff_witness :
    confirm_transfer (HttpResponse.mk 200 "Confirmation du virement" none) = .ok ()
    ∧ confirm_transfer (HttpResponse.mk 200 "Une erreur est survenue" none) =
        .error (.typed .InvalidTransfer) :=
  ⟨(C3_confirm_marker_iff (HttpResponse.mk 200 "Confirmation du virement" none)
      rfl).1.mpr (by decide),
   (C3_confirm_marker_iff (HttpResponse.mk 200 "Une erreur est survenue" none)
      rfl).2 (by decide)⟩

/-- C10: with `reason = None`, the reason check never fires (it is
applied only to caller-provided reasons), and the reason handed to the
set-reason step is the fixed default string
`Virement depuis BoursoBank`. -/
theorem C10_default_reason (env : TransferEnv) (amount : ℚ) (fa ta : Account)
    (tid fl : String) :
    resolve_reason none = .ok "Virement depuis BoursoBank"
    ∧ (∀ r, rustLen r ≤ 50 → resolve_reason (some r) = .ok r)
    ∧ (∀ s, (transfer_funds env amount fa ta none).submittedReason = some s →
        s = "Virement depuis BoursoBank")
    ∧ (¬ amount < 10 →
        init_transfer env.initResp = .ok tid →
        extract_flow_instance env.flowResp = .ok fl →
        set_debit_account env.debitResp = .ok () →
        set_credit_account (fa.kind == AccountKind.Banking) env.creditResp = .ok () →
        set_transfer_amount env.amountResp = .ok () →
        submit_step_7 env.step7Resp = .ok () →
        (transfer_funds env amount fa ta none).submittedReason =
          some "Virement depuis BoursoBank") := by
  refine ⟨rfl, ?_, ?_, ?_⟩
  · intro r hlen
    simp [resolve_reason, Nat.not_lt.mpr hlen]
  · intro s hs
    by_cases hv : amount < 10
    · simp [transfer_funds, hv] at hs
    · simp only [transfer_funds, if_neg hv, resolve_reason] at hs
      rcases h1 : init_transfer env.initResp with e | tid1 <;> rw [h1] at hs
      · simp at hs
      rcases h2 : extract_flow_instance env.flowResp with e | fl1 <;> rw [h2] at hs
      · simp at hs
      rcases h3 : set_debit_account env.debitResp with e | u <;> rw [h3] at hs
      · simp at hs
      rcases h4 : set_credit_account (fa.kind == AccountKind.Banking) env.creditResp
          with e | u <;> rw [h4] at hs
      · simp at hs
      rcases h5 : set_transfer_amount env.amountResp with e | u <;> rw [h5] at hs
      · simp at hs
      rcases h6 : submit_step_7 env.step7Resp with e | u <;> rw [h6] at hs
      · simp at hs
      rcases h7 : set_transfer_reason env.reasonResp with e | u <;> rw [h7] at hs
      · simpa using hs.symm
      rcases h8 : confirm_transfer env.confirmResp with e | u <;> rw [h8] at hs
      · simpa using hs.symm
      · simpa using hs.symm
  · intro hv h1 h2 h3 h4 h5 h6
    rcases h7 : set_transfer_reason env.reasonResp with e | u
    · simp [transfer_funds, hv, resolve_reason, h1, h2, h3, h4, h5, h6, h7]
    rcases h8 : confirm_transfer env.confirmResp with e | u
    · simp [transfer_funds, hv, resolve_reason, h1, h2, h3, h4, h5, h6, h7, h8]
    · simp [transfer_funds, hv, resolve_reason, h1, h2, h3, h4, h5, h6, h7, h8]

/-- C10, instantiated: with the all-success fixture environment and no
caller reason, the submitted reason is the default string. -/
theorem C10_default_reason_witness :
    (transfer_funds fixEnvOk 100 fixAccountA fixAccountB none).submittedReason =
      some "Virement depuis BoursoBank" :=
  (C10_default_reason fixEnvOk 100 fixAccountA fixAccountB "YYY" "fl1").2.2.2
    (by decide) (by decide) (by decide) (by decide) (by decide) (by decide)
    (by decide)

/-- C6: after a redirect (302) to the password submission, the landing
page is classified as follows: a page with the log-out link yields
success carrying the freshly scraped config (with its user hash); a
page without it but with the security-check hint fails with
`MfaRequired`; a page with neither fails with `InvalidCredentials`.
The success branch assumes the landing page's config blob scrapes to a
config with a user hash, which is what the code's subsequent unwrap
requires. -/
theorem C6_landing_page_classification (parseJson : String → Option Config)
    (resp : HttpResponse) (landing : String) (hst : resp.status = 302) :
    (∀ cfg h, strContains landing "href=\"/se-deconnecter\"" = true →
      extract_brs_config parseJson landing = .ok cfg →
      cfg.user_hash = some h →
      login_outcome parseJson resp landing = .success cfg)
    ∧ (strContains landing "href=\"/se-deconnecter\"" = false →
        strContains landing "/securisation" = true →
        login_outcome parseJson resp landing = .mfaRequired)
    ∧ (strContains landing "href=\"/se-deconnecter\"" = false →
        strContains landing "/securisation" = false →
        login_outcome parseJson resp landing = .invalidCredentials) := by
  refine ⟨?_, ?_, ?_⟩
  · intro cfg h hlink hcfg hhash
    simp [login_outcome, hst, hlink, hcfg, hhash]
  · intro hlink hsec
    simp [login_outcome, hst, hlink, hsec]
  · intro hlink hsec
    simp [login_outcome, hst, hlink, hsec]

/-- C6, instantiated on three concrete landing pages. -/
theorem C6_landing_page_classification_witness :
    login_outcome fixParseJson (HttpResponse.mk 302 "" none) fixLandingAuth =
      .success ⟨some "61d55b52615fbdf"⟩
    ∧ login_outcome fixParseJson (HttpResponse.mk 302 "" none) fixLandingMfa =
      .mfaRequired
    ∧ login_outcome fixParseJson (HttpResponse.mk 302 "" none) fixLandingPlain =
      .invalidCredentials :=
  ⟨(C6_landing_page_classification fixParseJson (HttpResponse.mk 302 "" none)
      fixLandingAuth rfl).1 ⟨some "61d55b52615fbdf"⟩ "61d55b52615fbdf"
      (by decide) (by decide) rfl,
   (C6_landing_page_classification fixParseJson (HttpResponse.mk 302 "" none)
      fixLandingMfa rfl).2.1 (by decide) (by decide),
   (C6_landing_page_classification fixParseJson (HttpResponse.mk 302 "" none)
      fixLandingPlain rfl).2.2 (by decide) (by decide)⟩

/-- C7, counterexample to the claim as stated: a non-redirect password
submission whose body carries neither recognized error marker does NOT
fail with the typed `InvalidCredentials`; it fails with the untyped
`Could not login to Bourso website, status code: ...` error. -/
theorem C7_nonredirect_counterexample :
    login_outcome (fun _ => none) (HttpResponse.mk 400 "Bad Request" none) "" =
      .loginFailed 400
    ∧ LoginResult.loginFailed 400 ≠ .invalidCredentials := by
  constructor
  · decide
  · decide

/-- C7, amended: on a non-redirect status, login fails with
`InvalidCredentials` exactly when the response body contains one of
the two recognized error markers (`Identifiant ou mot de passe
invalide`, `Erreur d'authentification`); with neither marker it fails
with the untyped status-code error. -/
theorem C7_nonredirect_classification (parseJson : String → Option Config)
    (resp : HttpResponse) (landing : String) (hst : resp.status ≠ 302) :
    (strContains resp.body "Identifiant ou mot de passe invalide" = true
        ∨ strContains resp.body "Erreur d'authentification" = true →
      login_outcome parseJson resp landing = .invalidCredentials)
    ∧ (strContains resp.body "Identifiant ou mot de passe invalide" = false →
        strContains resp.body "Erreur d'authentification" = false →
        login_outcome parseJson resp landing = .loginFailed resp.status) := by
  constructor
  · rintro (hm | hm) <;> simp [login_outcome, hst, hm]
  · intro hm1 hm2
    simp [login_outcome, hst, hm1, hm2]

/-- C7 (amended), instantiated: marker body vs. plain body on a 400
response. -/
theorem C7_nonredirect_classification_witness :
    login_outcome (fun _ => none)
        (HttpResponse.mk 400 "zz Erreur d'authentification zz" none) "" =
      .invalidCredentials
    ∧ login_outcome (fun _ => none) (HttpResponse.mk 400 "Bad Request" none) "" =
      .loginFailed 400 :=
  ⟨(C7_nonredirect_classification (fun _ => none)
      (HttpResponse.mk 400 "zz Erreur d'authentification zz" none) ""
      (by decide)).1 (Or.inr (by decide)),
   (C7_nonredirect_classification (fun _ => none)
      (HttpResponse.mk 400 "Bad Request" none) "" (by decide)).2
      (by decide) (by decide)⟩

/-- C8: on a page missing the expected fragment, the parse helpers are
NOT uniformly total: `extract_token` and `extract_brs_config` read the
regex captures with an unchecked `.unwrap()` and panic, while only
`extract_brs_mit_cookie` checks the miss and returns an error.  The
empty page exhibits all three behaviours. -/
theorem C8_parse_helpers_panic_on_miss :
    extract_token "" = .panicked
    ∧ extract_brs_config (fun _ => none) "" = .panicked
    ∧ extract_brs_mit_cookie "" = .err "Could not extract brs mit cookie" := by
  refine ⟨?_, ?_, ?_⟩ <;> decide

/-- C4: the decoder rejects an unrecognized glyph, but it does NOT
fail on a fragment whose 10 slots cannot all be resolved: with only 9
keys it returns a mapping whose tenth slot is the unpopulated empty
string, and with two keys carrying the same glyph it returns a mapping
in which the later key overwrote the earlier one and some slot is left
empty — both without an error. -/
theorem C4_keypad_partial_mapping_returned :
    extract_data_matrix_keys fixGlyphTable fixCaps9 =
      .ok ["AAA", "BBB", "CCC", "DDD", "EEE", "FFF", "GGG", "HHH", "III", ""]
    ∧ extract_data_matrix_keys fixGlyphTable fixCapsDup =
      .ok ["BBB", "", "CCC", "DDD", "EEE", "FFF", "GGG", "HHH", "III", "JJJ"]
    ∧ extract_data_matrix_keys fixGlyphTable [("AAA", "unknown-glyph")] =
      .error "Could not find number for svg" := by
  refine ⟨?_, ?_, ?_⟩ <;> decide

/-- C5: the password encoder of `bourso/client.rs` performs no
precondition check on the keypad mapping: with the mapping still empty
(the state before `init_session`) it panics on the unchecked index
instead of returning an error, and with a 10-slot mapping whose slot 1
is unresolved it silently encodes the digit `1` as the empty
identifier and reports success. -/
theorem C5_keypad_encoding_unchecked :
    password_to_virtual_pad_keys [] "1" = .panicked
    ∧ password_to_virtual_pad_keys fixPadWithHole "1" = .ok [""] := by
  constructor <;> decide

/-- C9: in `handle_mfa`, two consecutive `MfaRequired` outcomes are
followed on the third attempt by an `init_session`+`login` restart
instead of a third MFA check: the action trace is then exactly
`[mfaCheck, mfaCheck, initSessionLogin]`; and no trace of the loop
ever contains more than two MFA checks. -/
theorem C9_mfa_retry_threshold (outcomes : Nat → SubmitOutcome) :
    (outcomes 0 = .mfaRequired → outcomes 1 = .mfaRequired →
      handle_mfa outcomes = [.mfaCheck, .mfaCheck, .initSessionLogin])
    ∧ (handle_mfa outcomes).count .mfaCheck ≤ 2 := by
  constructor
  · intro h0 h1
    simp [handle_mfa, handle_mfa_aux, h0, h1]
  · rcases h0 : outcomes 0 <;> rcases h1 : outcomes 1 <;>
      simp [handle_mfa, handle_mfa_aux, h0, h1, List.count_cons]

/-- C9, instantiated: an oracle that always answers `MfaRequired`. -/
theorem C9_mfa_retry_threshold_witness :
    handle_mfa (fun _ => .mfaRequired) = [.mfaCheck, .mfaCheck, .initSessionLogin]
    ∧ (handle_mfa (fun _ => .mfaRequired)).count .mfaCheck ≤ 2 :=
  ⟨(C9_mfa_retry_threshold (fun _ => .mfaRequired)).1 rfl rfl,
   (C9_mfa_retry_threshold (fun _ => .mfaRequired)).2⟩

end Bourso
